import Mathlib

/-!
London Traffic Live — verification of the disruption data pipeline.

Shallow embedding of the core of the `london-traffic` dashboard:
the fetch → normalize → filter → derive-counts pipeline
(`src/services/tflApi.ts`, `src/hooks/useDisruptions.ts`), the app-level
selection state machine (`src/App.tsx`, `useUIState`), and the map
view-sync coordinator (`src/components/TrafficMap.tsx`).

Modelling conventions:
* JS strings are `List Char`; `String.prototype.toLowerCase` is mapped
  char-by-char (`jsToLower`), and `String.prototype.includes` is
  `strIncludes`.
* JS numbers carried by coordinates are rationals (`ℚ`); `Math.random()`
  draws are passed in as explicit parameters.
* A value that may be absent (`undefined`/missing field) is an `Option`;
  JS truthiness of an optional string is "present and non-empty", of an
  optional number "present and non-zero".
* `severity` is the closed enum `'Severe' | 'Moderate' | 'Minor'` of
  `src/types/disruption.ts`; the symbolic constants `TEXT_CONSTANTS[7..9]`
  are modelled as these three values, as documented at their use sites
  (`// 'Severe'` comments and `as 'Severe'` casts in the source tree).
-/

namespace LondonTraffic

/-- JS `String.prototype.toLowerCase`, modelled character-wise (ASCII case map). -/
def jsToLower (s : List Char) : List Char := s.map Char.toLower

/-- Tests whether `pat` occurs at the start of `hay` (substring search helper). -/
def strStarts : List Char → List Char → Bool
  | [], _ => true
  | _ :: _, [] => false
  | p :: ps, h :: hs => p == h && strStarts ps hs

/-- JS `hay.includes(pat)` — substring containment. -/
def strIncludes : List Char → List Char → Bool
  | hay, pat =>
    if strStarts pat hay then true
    else match hay with
      | [] => false
      | _ :: t => strIncludes t pat

/-- The closed severity enum of `src/types/disruption.ts`. -/
inductive Severity where
  | Severe
  | Moderate
  | Minor
deriving DecidableEq, Repr

/-- The closed status enum of `src/types/disruption.ts`. -/
inductive Status where
  | Active
  | Inactive
deriving DecidableEq, Repr

/-- Normalized internal record (`Disruption` in `src/types/disruption.ts`).
`geography` holds the optional `coordinates` array `[longitude, latitude]`. -/
structure Disruption where
  id : List Char
  location : List Char
  severity : Severity
  comments : List Char
  currentUpdate : List Char
  status : Status
  geography : Option (List ℚ)
deriving DecidableEq, Repr

/-- The `FilterState` of `src/types/disruption.ts`: selected severities plus a
location search string. -/
structure FilterState where
  severities : Finset Severity
  searchQuery : List Char
deriving DecidableEq

/-- The filter predicate body of `filterDisruptions`
(`src/hooks/useDisruptions.ts` lines 20–36): inactive records are dropped,
then unselected severities, then — only when a search query is present —
a case-insensitive substring match against `location`. -/
def disruptionMatches (filters : FilterState) (disruption : Disruption) : Bool :=
  if disruption.status ≠ Status.Active then false
  else if disruption.severity ∉ filters.severities then false
  else if filters.searchQuery ≠ [] then
    strIncludes (jsToLower disruption.location) (jsToLower filters.searchQuery)
  else true

/-- The `filterDisruptions` function (`src/hooks/useDisruptions.ts` lines 20–36). -/
def filterDisruptions (disruptions : List Disruption) (filters : FilterState) :
    List Disruption :=
  disruptions.filter (disruptionMatches filters)

theorem disruptionMatches_iff (C : FilterState) (d : Disruption) :
    disruptionMatches C d = true ↔
      d.status = Status.Active ∧ d.severity ∈ C.severities ∧
        (C.searchQuery = [] ∨
          strIncludes (jsToLower d.location) (jsToLower C.searchQuery) = true) := by
  unfold disruptionMatches
  by_cases h1 : d.status = Status.Active
  · by_cases h2 : d.severity ∈ C.severities
    · by_cases h3 : C.searchQuery = [] <;> simp [h1, h2, h3]
    · simp [h1, h2]
  · simp [h1]

/-- C1: For every list of normalized records and every filter criteria, the
filter yields exactly the records with status `Active`, severity in the
selected set, and (empty search query, or location containing the query
case-insensitively) — conjunctive, nothing else excluded or included. -/
theorem filterDisruptions_conjunctive (R : List Disruption) (C : FilterState)
    (d : Disruption) :
    d ∈ filterDisruptions R C ↔
      d ∈ R ∧ d.status = Status.Active ∧ d.severity ∈ C.severities ∧
        (C.searchQuery = [] ∨
          strIncludes (jsToLower d.location) (jsToLower C.searchQuery) = true) := by
  unfold filterDisruptions
  rw [List.mem_filter, disruptionMatches_iff]

/-- The severe/moderate/minor/total counts object. -/
structure SeverityCounts where
  severe : ℕ
  moderate : ℕ
  minor : ℕ
  total : ℕ
deriving DecidableEq, Repr

/-- The `calculateCounts` function (`src/hooks/useDisruptions.ts` lines 50–55): counts by
severity over whatever list it is given; `total` is the plain length. In the
hook it is applied to the full, unfiltered `disruptions` state. -/
def calculateCounts (disruptions : List Disruption) : SeverityCounts :=
  { severe := (disruptions.filter fun d => d.severity = Severity.Severe).length
    moderate := (disruptions.filter fun d => d.severity = Severity.Moderate).length
    minor := (disruptions.filter fun d => d.severity = Severity.Minor).length
    total := disruptions.length }

/-- The `disruptionCounts` memo in `src/App.tsx` lines 15–23: the same three severity
counts plus length, but computed over the list App receives from the hook —
which is the FILTERED `disruptions` (the hook returns
`disruptions: filteredDisruptions`). -/
def appDisruptionCounts (records : List Disruption) (filters : FilterState) :
    SeverityCounts :=
  let allDisruptions := filterDisruptions records filters
  { severe := (allDisruptions.filter fun d => d.severity = Severity.Severe).length
    moderate := (allDisruptions.filter fun d => d.severity = Severity.Moderate).length
    minor := (allDisruptions.filter fun d => d.severity = Severity.Minor).length
    total := allDisruptions.length }

/-- Loading/error state (`LoadingState` in `src/types/disruption.ts`). -/
structure LoadingState where
  isLoading : Bool
  error : Option (List Char)
deriving DecidableEq, Repr

/-- The state owned by the `useDisruptions` hook: the authoritative record
list, loading/error state, filter criteria, last-updated timestamp (ms), and
the initial-load flag. -/
structure HookState where
  disruptions : List Disruption
  loadingState : LoadingState
  filters : FilterState
  lastUpdated : Option ℕ
  isInitialLoad : Bool
deriving DecidableEq

/-- The counts the hook derives and returns
(`const disruptionCounts = calculateCounts(disruptions)` in
`src/hooks/useDisruptions.ts` line 114): computed from the full record state,
not from the filtered list. -/
def hookDisruptionCounts (s : HookState) : SeverityCounts :=
  calculateCounts s.disruptions

/-- The status-Active subset of a record list (the record set the spec says
counts are derived from). -/
def activeRecords (records : List Disruption) : List Disruption :=
  records.filter fun d => d.status = Status.Active

/-- Every list's length is the sum of its three severity-class counts
(the severity enum is closed). -/
theorem length_eq_severity_counts (l : List Disruption) :
    l.length = (l.filter fun d => d.severity = Severity.Severe).length
      + (l.filter fun d => d.severity = Severity.Moderate).length
      + (l.filter fun d => d.severity = Severity.Minor).length := by
  induction l with
  | nil => rfl
  | cons d t ih =>
    cases hd : d.severity <;> simp [List.filter, hd, List.length_cons, ih] <;> omega

/-- A record used in concrete refutations: status `Inactive`. -/
def dInactiveSevere : Disruption :=
  { id := "42".data
    location := "Oxford St".data
    severity := Severity.Severe
    comments := "closure".data
    currentUpdate := "update".data
    status := Status.Inactive
    geography := some [(0 : ℚ), (51 : ℚ)] }

/-- A record used in concrete witnesses: status `Active`. -/
def dActiveSevere : Disruption :=
  { id := "1".data
    location := "Oxford St".data
    severity := Severity.Severe
    comments := "incident".data
    currentUpdate := "ongoing".data
    status := Status.Active
    geography := some [(0 : ℚ), (51 : ℚ)] }

/-- The default filter criteria (all severities, empty query). -/
def defaultFilters : FilterState :=
  { severities := {Severity.Severe, Severity.Moderate, Severity.Minor}
    searchQuery := [] }

/-- C2 counterexample: the claim fails in both cited places. The hook's
`calculateCounts` counts a status-`Inactive` record (so its counts are not
derived from exactly the status-Active records), and App's `disruptionCounts`
changes when the selected-severities criteria change (so they are not
independent of the current filter selection). -/
theorem counts_claim_counterexample :
    calculateCounts [dInactiveSevere]
        ≠ calculateCounts (activeRecords [dInactiveSevere]) ∧
      appDisruptionCounts [dActiveSevere] defaultFilters
        ≠ appDisruptionCounts [dActiveSevere]
            { defaultFilters with severities := {Severity.Moderate, Severity.Minor} } := by
  constructor
  · decide
  · decide

/-- C2 amended: the hook's counts are computed from the full fetched record
list — regardless of the current filter criteria, but also regardless of
status (`Inactive` records are counted) — and satisfy
`total = severe + moderate + minor`; the counts App derives and displays are
computed from the filtered visible list (so they depend on the current
selection) and satisfy the same total identity. -/
theorem counts_amended :
    ∀ (s : HookState) (C : FilterState) (l : List Disruption),
      hookDisruptionCounts { s with filters := C } = hookDisruptionCounts s ∧
      (calculateCounts l).total =
        (calculateCounts l).severe + (calculateCounts l).moderate
          + (calculateCounts l).minor ∧
      (appDisruptionCounts l C).total =
        (appDisruptionCounts l C).severe + (appDisruptionCounts l C).moderate
          + (appDisruptionCounts l C).minor := by
  intro s C l
  refine ⟨rfl, length_eq_severity_counts l, ?_⟩
  exact length_eq_severity_counts (filterDisruptions l C)

/-- An untyped JS value as far as the normalizer inspects it: a string, a
truthy non-string, or an absent/falsy non-string value (`undefined`, `null`,
`0`, `NaN`, ...). -/
inductive JsVal where
  | str (s : List Char)
  | nonStringTruthy
  | absent
deriving DecidableEq, Repr

/-- JS truthiness of a `JsVal` (an empty string is falsy). -/
def JsVal.truthy : JsVal → Bool
  | .str s => !s.isEmpty
  | .nonStringTruthy => true
  | .absent => false

/-- JS `a || b` on untyped values. -/
def jsOr (a b : JsVal) : JsVal := if a.truthy then a else b

/-- JS `a || b` where `a` is an optional string and the result feeds another
`||`: keeps `a` when present and non-empty, else `b`. -/
def strOr (a : Option (List Char)) (b : List Char) : List Char :=
  match a with
  | some s => if s.isEmpty then b else s
  | none => b

/-- The `TflApiService.normalizeSeverity` function (`src/services/tflApi.ts` lines 32–40):
substring tests on the lowercased input, defaulting to `Minor`. -/
def normalizeSeverity (severity : JsVal) : Severity :=
  match severity with
  | .str s =>
    let lower := jsToLower s
    if strIncludes lower "severe".data || strIncludes lower "major".data
        || strIncludes lower "high".data then Severity.Severe
    else if strIncludes lower "moderate".data
        || strIncludes lower "medium".data then Severity.Moderate
    else if strIncludes lower "minor".data || strIncludes lower "low".data
        || strIncludes lower "minimal".data then Severity.Minor
    else Severity.Minor
  | _ => Severity.Minor

/-- The `TflApiService.normalizeStatus` function (`src/services/tflApi.ts` lines 42–53):
the `'active' | 'current' | 'ongoing'` test runs first, then
`'resolved' | 'closed' | 'inactive'`, defaulting to `Active`. -/
def normalizeStatus (status : JsVal) : Status :=
  match status with
  | .str s =>
    let lower := jsToLower s
    if strIncludes lower "active".data || strIncludes lower "current".data
        || strIncludes lower "ongoing".data then Status.Active
    else if strIncludes lower "resolved".data || strIncludes lower "closed".data
        || strIncludes lower "inactive".data then Status.Inactive
    else Status.Active
  | _ => Status.Active

/-- The severity mapping as the spec states it: `severe`/`major`/`high`
(case-insensitive substrings) give `Severe`, otherwise `moderate`/`medium`
give `Moderate`, and every other input — strings without those substrings,
and all non-strings — gives `Minor`. -/
def severitySpecMap (severity : JsVal) : Severity :=
  match severity with
  | .str s =>
    let lower := jsToLower s
    if strIncludes lower "severe".data || strIncludes lower "major".data
        || strIncludes lower "high".data then Severity.Severe
    else if strIncludes lower "moderate".data
        || strIncludes lower "medium".data then Severity.Moderate
    else Severity.Minor
  | _ => Severity.Minor

/-- C4: `normalizeSeverity` always lands in the closed three-value enum and
coincides with the spec's mapping: `severe`/`major`/`high` → `Severe`, else
`moderate`/`medium` → `Moderate`, everything else (including non-strings,
`null`, `undefined`) → `Minor` — the code's explicit `minor`/`low`/`minimal`
branch is absorbed by the default. -/
theorem normalizeSeverity_matches_spec (input : JsVal) :
    normalizeSeverity input = severitySpecMap input := by
  cases input with
  | str s =>
    show (if _ then _ else if _ then _ else if _ then _ else _)
      = (if _ then _ else if _ then _ else _)
    split_ifs <;> rfl
  | nonStringTruthy => rfl
  | absent => rfl

/-- An upstream feed item, as far as the normalizer inspects it.
Coordinate arrays (`item.geography.coordinates`, `item.point.coordinates`)
are `some` exactly when the nested field exists as an array (arrays are
always truthy in JS); `lat`/`lon` are `some` exactly when the flat numeric
field exists. -/
structure RawItem where
  id : Option (List Char)
  location : Option (List Char)
  corridorIds : Option (List (List Char))
  description : Option (List Char)
  summary : Option (List Char)
  comments : Option (List Char)
  currentUpdate : Option (List Char)
  additionalInfo : Option (List Char)
  severityLevel : JsVal
  severity : JsVal
  status : JsVal
  geographyCoordinates : Option (List ℚ)
  pointCoordinates : Option (List ℚ)
  lat : Option ℚ
  lon : Option ℚ
deriving DecidableEq, Repr

/-- JS truthiness of an optional string field. -/
def strTruthy : Option (List Char) → Bool
  | some s => !s.isEmpty
  | none => false

/-- JS truthiness of an optional numeric field (`0` is falsy). -/
def numTruthy : Option ℚ → Bool
  | some q => q ≠ 0
  | none => false

/-- The London demo bounds of `extractGeography`
(`src/services/tflApi.ts` lines 69–74). -/
def londonBoundsNorth : ℚ := 517/10
/-- South London demo bound (51.3). -/
def londonBoundsSouth : ℚ := 513/10
/-- East London demo bound (0.3). -/
def londonBoundsEast : ℚ := 3/10
/-- West London demo bound (-0.6). -/
def londonBoundsWest : ℚ := -(6/10)

/-- The `TflApiService.extractGeography` function (`src/services/tflApi.ts` lines 55–83):
nested `geography.coordinates`, else nested `point.coordinates`, else truthy
flat `lat`/`lon`, else — when `location` or `description` is truthy — a
fabricated random point inside the London demo bounds (`r1`, `r2` stand for
the two `Math.random()` draws), else `undefined`. -/
def extractGeography (item : RawItem) (r1 r2 : ℚ) : Option (List ℚ) :=
  match item.geographyCoordinates with
  | some cs => some cs
  | none =>
    match item.pointCoordinates with
    | some cs => some cs
    | none =>
      if numTruthy item.lat && numTruthy item.lon then
        some [item.lon.getD 0, item.lat.getD 0]
      else if strTruthy item.location || strTruthy item.description then
        some [londonBoundsWest + r1 * (londonBoundsEast - londonBoundsWest),
              londonBoundsSouth + r2 * (londonBoundsNorth - londonBoundsSouth)]
      else none

/-- The strict `extractGeography` variant (`src/services/tflApi.ts` lines
243–265): each nested array must be a length-2 pair (numeric entries are
enforced by the `List ℚ` model), the flat path accepts any numbers (including
0), and nothing is ever fabricated. -/
def extractGeographyStrict (item : RawItem) : Option (List ℚ) :=
  match item.geographyCoordinates with
  | some cs =>
    if cs.length = 2 then some cs
    else extractGeographyStrictPoint item
  | none => extractGeographyStrictPoint item
where
  /-- The `point.coordinates` / flat-`lat`/`lon` tail of the strict variant. -/
  extractGeographyStrictPoint (item : RawItem) : Option (List ℚ) :=
    match item.pointCoordinates with
    | some cs =>
      if cs.length = 2 then some cs
      else extractGeographyStrictFlat item
    | none => extractGeographyStrictFlat item
  /-- The flat-`lat`/`lon` tail of the strict variant. -/
  extractGeographyStrictFlat (item : RawItem) : Option (List ℚ) :=
    match item.lat, item.lon with
    | some la, some lo => some [lo, la]
    | _, _ => none

/-- The coordinate extraction exactly as the claim states it: a nested
`geography.coordinates` pair, else a nested `point.coordinates` pair, else
flat `lat`/`lon` scalar fields, first match winning; no coordinates
otherwise, never fabricated. -/
def coordsClaimSpec (item : RawItem) : Option (List ℚ) :=
  match item.geographyCoordinates with
  | some cs => some cs
  | none =>
    match item.pointCoordinates with
    | some cs => some cs
    | none =>
      match item.lat, item.lon with
      | some la, some lo => some [lo, la]
      | _, _ => none

/-- An item with none of the three coordinate shapes but a truthy
`location`. -/
def itemNoCoordShape : RawItem :=
  { id := some "7".data
    location := some "Oxford St".data
    corridorIds := none
    description := none
    summary := none
    comments := none
    currentUpdate := none
    additionalInfo := none
    severityLevel := JsVal.absent
    severity := JsVal.str "Moderate".data
    status := JsVal.str "Active".data
    geographyCoordinates := none
    pointCoordinates := none
    lat := none
    lon := none }

/-- C5 counterexample: for an item carrying none of the three upstream
coordinate shapes but a non-empty `location`, `extractGeography` fabricates
coordinates (here with both `Math.random()` draws at 1/2), while the claim
says such an item carries no coordinates. -/
theorem extractGeography_fabrication_counterexample :
    coordsClaimSpec itemNoCoordShape = none ∧
      extractGeography itemNoCoordShape (1/2) (1/2) ≠ coordsClaimSpec itemNoCoordShape ∧
      (extractGeography itemNoCoordShape (1/2) (1/2)).isSome = true := by
  refine ⟨rfl, ?_, ?_⟩ <;> decide

/-- C5 amended: the three upstream shapes are tried in the claimed order,
first match winning (with the flat path requiring truthy — non-zero — `lat`
and `lon`); but when none of them matches, an item with a truthy `location`
or `description` receives fabricated coordinates inside the London demo
bounds, and only an item lacking those as well carries no coordinates. (The
strict variant at lines 243–265 never fabricates and matches the claimed
shapes exactly.) -/
theorem extractGeography_amended (item : RawItem) (r1 r2 : ℚ) :
    (∀ cs, item.geographyCoordinates = some cs →
      extractGeography item r1 r2 = some cs) ∧
    (∀ cs, item.geographyCoordinates = none → item.pointCoordinates = some cs →
      extractGeography item r1 r2 = some cs) ∧
    (∀ la lo, item.geographyCoordinates = none → item.pointCoordinates = none →
      item.lat = some la → item.lon = some lo → la ≠ 0 → lo ≠ 0 →
      extractGeography item r1 r2 = some [lo, la]) ∧
    (item.geographyCoordinates = none → item.pointCoordinates = none →
      (numTruthy item.lat && numTruthy item.lon) = false →
      (strTruthy item.location || strTruthy item.description) = true →
      extractGeography item r1 r2 =
        some [londonBoundsWest + r1 * (londonBoundsEast - londonBoundsWest),
              londonBoundsSouth + r2 * (londonBoundsNorth - londonBoundsSouth)]) ∧
    (item.geographyCoordinates = none → item.pointCoordinates = none →
      (numTruthy item.lat && numTruthy item.lon) = false →
      (strTruthy item.location || strTruthy item.description) = false →
      extractGeography item r1 r2 = none) := by
  refine ⟨?_, ?_, ?_, ?_, ?_⟩
  · intro cs h
    simp [extractGeography, h]
  · intro cs h h2
    simp [extractGeography, h, h2]
  · intro la lo h h2 hla hlo hla0 hlo0
    simp [extractGeography, h, h2, numTruthy, hla, hlo, hla0, hlo0]
  · intro h h2 hnum htr
    simp only [extractGeography, h, h2, hnum, htr]
    simp [hnum, htr]
  · intro h h2 hnum htr
    simp only [extractGeography, h, h2]
    simp [hnum, htr]

/-- C5 amended witness: the first-shape conjunct at a concrete pair and the
no-coordinates conjunct at a concrete shapeless item. -/
theorem extractGeography_amended_witness :
    extractGeography
        { itemNoCoordShape with geographyCoordinates := some [1, 2] } 0 0
      = some [1, 2] ∧
    extractGeography
        { itemNoCoordShape with location := none, id := none } 0 0
      = none := by
  constructor
  · exact (extractGeography_amended
      { itemNoCoordShape with geographyCoordinates := some [1, 2] } 0 0).1
      [1, 2] rfl
  · exact (extractGeography_amended
      { itemNoCoordShape with location := none, id := none } 0 0).2.2.2.2
      rfl rfl (by decide) (by decide)

/-- Fallback text `'Unknown location'` (`src/services/tflApi.ts` line 19). -/
def unknownLocation : List Char := "Unknown location".data
/-- Fallback text `'No description available'` (line 21). -/
def noDescriptionAvailable : List Char := "No description available".data
/-- Fallback text `'No current update'` (line 22). -/
def noCurrentUpdate : List Char := "No current update".data

/-- JS `item.corridorIds?.[0]` — first corridor id, if the array exists and is
non-empty. -/
def corridorHead (o : Option (List (List Char))) : Option (List Char) :=
  o.bind List.head?

/-- The per-item mapping inside `TflApiService.getTrafficDisruptions`
(`src/services/tflApi.ts` lines 17–25). `rid` stands for the randomly
generated `disruption-…` id and `r1`, `r2` for the two `Math.random()`
draws inside `extractGeography`. -/
def normalizeItem (item : RawItem) (rid : List Char) (r1 r2 : ℚ) : Disruption :=
  { id := strOr item.id rid
    location := strOr item.location
      (strOr (corridorHead item.corridorIds) (strOr item.description unknownLocation))
    severity := normalizeSeverity (jsOr item.severityLevel item.severity)
    comments := strOr item.description
      (strOr item.summary (strOr item.comments noDescriptionAvailable))
    currentUpdate := strOr item.currentUpdate
      (strOr item.additionalInfo noCurrentUpdate)
    status := normalizeStatus item.status
    geography := extractGeography item r1 r2 }

/-- The string form of a normalized severity value. -/
def severityText : Severity → List Char
  | Severity.Severe => "Severe".data
  | Severity.Moderate => "Moderate".data
  | Severity.Minor => "Minor".data

/-- The string form of a normalized status value. -/
def statusText : Status → List Char
  | Status.Active => "Active".data
  | Status.Inactive => "Inactive".data

/-- A normalized record viewed again as an upstream item (the round trip the
idempotence property is about): every internal field sits in its own slot,
all other upstream fields are absent. -/
def recordToItem (d : Disruption) : RawItem :=
  { id := some d.id
    location := some d.location
    corridorIds := none
    description := none
    summary := none
    comments := some d.comments
    currentUpdate := some d.currentUpdate
    additionalInfo := none
    severityLevel := JsVal.absent
    severity := JsVal.str (severityText d.severity)
    status := JsVal.str (statusText d.status)
    geographyCoordinates := d.geography
    pointCoordinates := none
    lat := none
    lon := none }

/-- C3 (code bug): re-normalizing the already-normalized record
`dInactiveSevere` flips its status from `Inactive` to `Active`, because
`normalizeStatus` tests the `'active'` substring first and the lowercased
string `"inactive"` contains `"active"` — which also makes the function's own
`'inactive' → Inactive` branch unreachable. Every other field survives the
round trip, so the result differs from the input exactly in `status`. -/
theorem normalize_not_idempotent_on_inactive :
    dInactiveSevere.status = Status.Inactive ∧
      normalizeStatus (JsVal.str "Inactive".data) = Status.Active ∧
      (normalizeItem (recordToItem dInactiveSevere) "disruption-x1y2z3a4b".data 0 0).status
        = Status.Active ∧
      normalizeItem (recordToItem dInactiveSevere) "disruption-x1y2z3a4b".data 0 0
        = { dInactiveSevere with status := Status.Active } := by
  refine ⟨rfl, by decide, by decide, ?_⟩
  decide

/-- The ways a fetch cycle can fail (`src/services/tflApi.ts` lines 6–30):
a network-level error from `fetch`, a non-2xx HTTP status, or a JSON parse
failure. All of them land in the same `catch`. -/
inductive FetchFailure where
  | network
  | httpStatus (code : ℕ)
  | jsonParse
deriving DecidableEq, Repr

/-- The user-facing message thrown for every fetch failure
(`src/services/tflApi.ts` line 28). -/
def userFacingFetchError : List Char :=
  "Failed to fetch traffic disruptions. Please try again later.".data

/-- The `TflApiService.getTrafficDisruptions` method (`src/services/tflApi.ts` lines
6–30): on success the payload items are mapped through the normalizer, on
any failure the single user-facing error is thrown. `oracle` supplies, per
item index, the random id and the two `Math.random()` draws used by
`extractGeography`. -/
def getTrafficDisruptions (outcome : Except FetchFailure (List RawItem))
    (oracle : ℕ → List Char × ℚ × ℚ) : Except (List Char) (List Disruption) :=
  match outcome with
  | Except.error _ => Except.error userFacingFetchError
  | Except.ok items =>
    Except.ok (items.enum.map fun p =>
      normalizeItem p.2 (oracle p.1).1 (oracle p.1).2.1 (oracle p.1).2.2)

/-- One completed fetch cycle of `fetchDisruptions`
(`src/hooks/useDisruptions.ts` lines 128–193): on success the records are
replaced wholesale, `lastUpdated` set to now, loading/error cleared, and the
initial-load flag dropped; in the `catch` branch only `loadingState` is
written — records, timestamp, filters and flags stay as they were.
(`isManualRefresh` only gates the new-severe notification side channel.) -/
def fetchDisruptionsStep (s : HookState) (isManualRefresh : Bool)
    (result : Except (List Char) (List Disruption)) (now : ℕ) : HookState :=
  match result with
  | Except.ok data =>
    { s with disruptions := data
             lastUpdated := some now
             loadingState := { isLoading := false, error := none }
             isInitialLoad := false }
  | Except.error msg =>
    { s with loadingState := { isLoading := false, error := some msg } }

/-- C6: every failing fetch cycle — network error, non-2xx status, or JSON
parse failure — sets the store's error to the user-facing message and leaves
the previously held records (and the rest of the store state) exactly as
they were. -/
theorem fetch_failure_preserves_records (s : HookState) (isManual : Bool)
    (now : ℕ) (fail : FetchFailure) (oracle : ℕ → List Char × ℚ × ℚ) :
    (fetchDisruptionsStep s isManual
        (getTrafficDisruptions (Except.error fail) oracle) now).disruptions
        = s.disruptions ∧
    (fetchDisruptionsStep s isManual
        (getTrafficDisruptions (Except.error fail) oracle) now).loadingState.error
        = some userFacingFetchError ∧
    (fetchDisruptionsStep s isManual
        (getTrafficDisruptions (Except.error fail) oracle) now).lastUpdated
        = s.lastUpdated ∧
    (fetchDisruptionsStep s isManual
        (getTrafficDisruptions (Except.error fail) oracle) now).filters
        = s.filters :=
  ⟨rfl, rfl, rfl, rfl⟩

/-- What App renders (`src/App.tsx` lines 42–48 and below). -/
inductive AppView where
  | loadingSpinner
  | errorScreen (message : List Char) (hasRetry : Bool)
  | mainView (visible : List Disruption)
deriving DecidableEq, Repr

/-- The render gate of `App` (`src/App.tsx` lines 42–48): while loading, the
full-screen spinner; otherwise, whenever `error` is non-null, the full-screen
`ErrorMessage` with its retry action; only otherwise the main layout showing
the visible records. -/
def appRender (loadingState : LoadingState) (visible : List Disruption) : AppView :=
  if loadingState.isLoading then AppView.loadingSpinner
  else
    match loadingState.error with
    | some e => AppView.errorScreen e true
    | none => AppView.mainView visible

/-- C7 counterexample: after a failed refresh with records already loaded
(`error` set, a non-empty visible list retained), App still renders the
blocking full-screen error state — not the main layout with a non-blocking
notification the claim describes. -/
theorem error_screen_shown_when_populated :
    appRender { isLoading := false, error := some userFacingFetchError }
        [dActiveSevere]
      = AppView.errorScreen userFacingFetchError true ∧
    [dActiveSevere] ≠ ([] : List Disruption) := by
  exact ⟨rfl, by decide⟩

/-- C7 amended: whenever App is not in the loading state and `error` is
non-null, the blocking full-screen error state (with retry) is rendered —
on the very first load and equally after records have been loaded; the
retained records are then not visible, and no non-blocking notification is
wired (App passes no alert callback to the hook). Only with `error` null is
the main layout with the visible records rendered. -/
theorem appRender_error_gate (ls : LoadingState) (visible : List Disruption)
    (m : List Char) :
    (ls.isLoading = false → ls.error = some m →
      appRender ls visible = AppView.errorScreen m true) ∧
    (ls.isLoading = false → ls.error = none →
      appRender ls visible = AppView.mainView visible) ∧
    (ls.isLoading = true → appRender ls visible = AppView.loadingSpinner) := by
  refine ⟨?_, ?_, ?_⟩ <;> intros <;> simp [appRender, *]

/-- C7 amended witness: the gate evaluated at a concrete failed state and a
concrete clean state. -/
theorem appRender_error_gate_witness :
    appRender { isLoading := false, error := some userFacingFetchError } []
        = AppView.errorScreen userFacingFetchError true ∧
    appRender { isLoading := false, error := none } [dActiveSevere]
        = AppView.mainView [dActiveSevere] := by
  constructor
  · exact (appRender_error_gate
      { isLoading := false, error := some userFacingFetchError } []
      userFacingFetchError).1 rfl rfl
  · exact (appRender_error_gate { isLoading := false, error := none }
      [dActiveSevere] userFacingFetchError).2.1 rfl rfl

/-- A partial `FilterState` (`Partial<FilterState>` in
`src/hooks/useDisruptions.ts` line 217): each field is either supplied or
absent. -/
structure PartialFilterState where
  severities : Option (Finset Severity)
  searchQuery : Option (List Char)
deriving DecidableEq

/-- The `updateFilters` function (`src/hooks/useDisruptions.ts` lines 217–219): the JS
spread merge `{ ...prev, ...newFilters }` — a supplied field overwrites, an
absent field keeps the previous value. -/
def updateFilters (prev : FilterState) (newFilters : PartialFilterState) :
    FilterState :=
  { severities := newFilters.severities.getD prev.severities
    searchQuery := newFilters.searchQuery.getD prev.searchQuery }

/-- C10: fields absent from the partial update keep their previous value —
in particular, updating only `searchQuery` leaves `severities` unchanged and
updating only `severities` leaves `searchQuery` unchanged. -/
theorem updateFilters_frame (prev : FilterState) (p : PartialFilterState) :
    (p.severities = none →
      (updateFilters prev p).severities = prev.severities) ∧
    (p.searchQuery = none →
      (updateFilters prev p).searchQuery = prev.searchQuery) ∧
    (∀ q, p.severities = none → p.searchQuery = some q →
      updateFilters prev p = { prev with searchQuery := q }) ∧
    (∀ sv, p.searchQuery = none → p.severities = some sv →
      updateFilters prev p = { prev with severities := sv }) := by
  refine ⟨?_, ?_, ?_, ?_⟩ <;> intros <;> simp [updateFilters, *]

/-- C10 witness: a search-only update at concrete inputs keeps the previous
severities. -/
theorem updateFilters_frame_witness :
    updateFilters defaultFilters
        { severities := none, searchQuery := some "oxford".data }
      = { defaultFilters with searchQuery := "oxford".data } :=
  (updateFilters_frame defaultFilters
    { severities := none, searchQuery := some "oxford".data }).2.2.1
    "oxford".data rfl rfl

/-- The app-level UI state (`src/App.tsx` lines 10–27 /
`useUIState`): the record list received from the store, the selected record,
sidebar visibility, and the filter criteria. -/
structure AppState where
  disruptions : List Disruption
  selectedDisruption : Option Disruption
  isSidebarOpen : Bool
  filters : FilterState
deriving DecidableEq

/-- The events the app state reacts to: selecting a record (list item or
marker click), the clear-all action, the store replacing the record list
after a refresh, a filter update, and the sidebar toggle. -/
inductive AppEvent where
  | selectDisruption (d : Disruption)
  | clearAll
  | setRecords (l : List Disruption)
  | updateFilterCriteria (p : PartialFilterState)
  | toggleSidebar
deriving DecidableEq

/-- The app-level transition function, per `src/App.tsx`
(`handleDisruptionSelect`, `handleClearAll`, `toggleSidebar`) and the store's
`setDisruptions`: replacing the record list writes only `disruptions`;
nothing reads or resets the current selection when records change. -/
def appStep (s : AppState) : AppEvent → AppState
  | AppEvent.selectDisruption d => { s with selectedDisruption := some d }
  | AppEvent.clearAll =>
    { s with selectedDisruption := none
             filters := updateFilters s.filters
               { severities := some defaultFilters.severities
                 searchQuery := some [] } }
  | AppEvent.setRecords l => { s with disruptions := l }
  | AppEvent.updateFilterCriteria p => { s with filters := updateFilters s.filters p }
  | AppEvent.toggleSidebar => { s with isSidebarOpen := !s.isSidebarOpen }

/-- A concrete app state with a record selected. -/
def appStateSelected : AppState :=
  { disruptions := [dActiveSevere]
    selectedDisruption := some dActiveSevere
    isSidebarOpen := true
    filters := defaultFilters }

/-- C8 counterexample: the store replaces the records with a list that does
not contain the selected record's id, yet the selection still points at the
old record — it does not become `null`. -/
theorem stale_selection_counterexample :
    (appStep appStateSelected (AppEvent.setRecords [dInactiveSevere])).selectedDisruption
        = some dActiveSevere ∧
    dActiveSevere.id ∉ [dInactiveSevere].map Disruption.id ∧
    (appStep appStateSelected (AppEvent.setRecords [dInactiveSevere])).selectedDisruption
        ≠ none := by
  refine ⟨rfl, by decide, by decide⟩

/-- C8 amended: replacing the record list never touches the selection — the
previously selected record stays selected whether or not its id occurs in
the new list (so a selection can dangle); the selection becomes `null` only
through the clear-all action. -/
theorem setRecords_preserves_selection (s : AppState) (l : List Disruption) :
    (appStep s (AppEvent.setRecords l)).selectedDisruption = s.selectedDisruption ∧
    (appStep s AppEvent.clearAll).selectedDisruption = none :=
  ⟨rfl, rfl⟩

/-- A primitive the map view-sync coordinator issues
(`MapController` in `src/components/TrafficMap.tsx`). -/
inductive MapCmd where
  | closePopup
  | setView (lat lon : ℚ) (zoom : ℕ) (animate : Bool) (durationMs : ℕ)
  | openPopup (id : List Char)
deriving DecidableEq, Repr

/-- JS array destructuring access (pipeline coordinate arrays are pairs). -/
def jsGet (l : List ℚ) (i : ℕ) : ℚ := l.getD i 0

/-- The effect of `MapController` (`src/components/TrafficMap.tsx` lines
44–76) on a selection transition, as a schedule of commands with their issue
times in ms: a selected record with coordinates closes any popup, starts a
0.8 s (800 ms) animated `setView` to its position at zoom 15, and schedules
the popup-open at 900 ms; a cleared selection closes the popup and animates
back to the London default view; a selected record without coordinates does
nothing. -/
def mapControllerEffect : Option Disruption → List (ℕ × MapCmd)
  | some d =>
    match d.geography with
    | some coords =>
      [(0, MapCmd.closePopup),
       (0, MapCmd.setView (jsGet coords 1) (jsGet coords 0) 15 true 800),
       (900, MapCmd.openPopup d.id)]
    | none => []
  | none =>
    [(0, MapCmd.closePopup),
     (0, MapCmd.setView ((515074 : ℚ)/10000) (-(1278 : ℚ)/10000) 11 true 800)]

/-- The scheduled times of popup-open actions in a command schedule. -/
def popupOpenTimes (cmds : List (ℕ × MapCmd)) : List ℕ :=
  cmds.filterMap fun tc =>
    match tc.2 with
    | MapCmd.openPopup _ => some tc.1
    | _ => none

/-- The nominal completion times (issue time + duration) of viewport
animations in a command schedule. -/
def animationEndTimes (cmds : List (ℕ × MapCmd)) : List ℕ :=
  cmds.filterMap fun tc =>
    match tc.2 with
    | MapCmd.setView _ _ _ _ dur => some (tc.1 + dur)
    | _ => none

/-- C9: on a transition to a record with coordinates the coordinator closes
any open popup, starts the animated pan to the record's position, and
schedules the popup-open at 900 ms — strictly after the animation's nominal
completion at 0 + 800 ms, so the popup never opens before the pan ends. -/
theorem viewSync_popup_after_animation (d : Disruption) (coords : List ℚ)
    (h : d.geography = some coords) :
    mapControllerEffect (some d)
      = [(0, MapCmd.closePopup),
         (0, MapCmd.setView (jsGet coords 1) (jsGet coords 0) 15 true 800),
         (900, MapCmd.openPopup d.id)] ∧
    (∀ tp ∈ popupOpenTimes (mapControllerEffect (some d)),
      ∀ ta ∈ animationEndTimes (mapControllerEffect (some d)), ta < tp) := by
  have he : mapControllerEffect (some d)
      = [(0, MapCmd.closePopup),
         (0, MapCmd.setView (jsGet coords 1) (jsGet coords 0) 15 true 800),
         (900, MapCmd.openPopup d.id)] := by
    simp [mapControllerEffect, h]
  refine ⟨he, ?_⟩
  rw [he]
  intro tp hp ta ha
  simp [popupOpenTimes, animationEndTimes] at hp ha
  omega

/-- C9 witness: the schedule evaluated at a concrete selected record. -/
theorem viewSync_popup_after_animation_witness :
    mapControllerEffect (some dActiveSevere)
      = [(0, MapCmd.closePopup),
         (0, MapCmd.setView (jsGet [(0 : ℚ), (51 : ℚ)] 1)
              (jsGet [(0 : ℚ), (51 : ℚ)] 0) 15 true 800),
         (900, MapCmd.openPopup dActiveSevere.id)] :=
  (viewSync_popup_after_animation dActiveSevere [(0 : ℚ), (51 : ℚ)] rfl).1

end LondonTraffic
